import Mathlib

/-!
Verification development for the generalized-filtering repository
(src/lib/models/svg.py, src/lib/modules/latent_variables/fully_connected.py,
src/util/train_val.py).

Values are modelled over `ℚ`; a tensor of shape [B, S, D] is a function
`Fin B → Fin S → Fin D → ℚ` (or a function on the product index set).
Gradient bookkeeping is not part of the value-level semantics: `detach` is
the identity on values.  Components of the repository that are not under
src/ (the Normal distribution, the fully-connected layer, the latent level,
the base model class, the debugger breakpoint) are modelled from the spec,
as marked on each such definition.
-/

namespace GenFilter

/-- Models torch `.detach()` / `.data.clone()`: the identity on values.
Gradient blocking is a property of the autodiff graph, not of values. -/
def detach {α : Type} (x : α) : α := x

/-- Modelled from the spec: the stored noise of a distribution
(lib.distributions.Normal is not under src/).  A noise tensor for `n`
samples over the index set `ι`; spec section 4.1 says reuse requires a
matching shape, which here is the sample count `n`. -/
def NoiseT (ι : Type) : Type := (n : ℕ) × (Fin n → ι → ℚ)

/-- Modelled from the spec: lib.distributions.Normal (not under src/), spec
section 4.1.  A Gaussian-like object holding mean and log-variance tensors
over the index set `ι`, plus an optionally stored noise tensor. -/
structure Normal (ι : Type) where
  mean : ι → ℚ
  log_var : ι → ℚ
  noise : Option (NoiseT ι)

/-- Modelled from the spec: `Normal.re_init(mean=None, log_var=None)` resets
the stored noise and sets mean/log_var to the supplied values or zeros
(spec section 4.1). -/
def Normal.re_init {ι : Type} (_d : Normal ι)
    (m lv : Option (ι → ℚ)) : Normal ι :=
  { mean := m.getD (fun _ => 0)
    log_var := lv.getD (fun _ => 0)
    noise := none }

/-- Modelled from the spec: `Normal.sample(n_samples, resample)` (spec
section 4.1), the reparameterised draw `mean + sdev(log_var) * noise`.  The
standard-deviation map `exp(0.5 ·)` is kept abstract as the argument `sdev`
(only the reparameterisation structure matters here).  If `resample` is
false and stored noise with a matching sample count exists, it is reused;
otherwise the externally supplied fresh standard-normal noise is used.  The
noise that was used is stored.  Returns the sample and the updated
distribution. -/
def Normal.sample {ι : Type} (d : Normal ι) (sdev : ℚ → ℚ)
    (n_samples : ℕ) (resample : Bool) (fresh : Fin n_samples → ι → ℚ) :
    (Fin n_samples → ι → ℚ) × Normal ι :=
  let eps : Fin n_samples → ι → ℚ :=
    if resample then fresh
    else
      match d.noise with
      | some nz => if h : nz.1 = n_samples then fun k i => nz.2 (Fin.cast h.symm k) i else fresh
      | none => fresh
  (fun k i => d.mean i + sdev (d.log_var i) * eps k i,
   { d with noise := some ⟨n_samples, eps⟩ })

/-- Modelled from the spec: lib.modules.layers.FullyConnectedLayer (not
under src/): a learned affine map followed by the configured non-linearity
(identity when the config specifies none, sigmoid for the gate layers).
The non-linearity is carried abstractly as a scalar function. -/
structure FullyConnectedLayer (n_in n_out : ℕ) where
  weight : Fin n_out → Fin n_in → ℚ
  bias : Fin n_out → ℚ
  non_linearity : ℚ → ℚ

/-- Modelled from the spec: applying a fully-connected layer to one input
row. -/
def FullyConnectedLayer.run {n_in n_out : ℕ}
    (L : FullyConnectedLayer n_in n_out) (x : Fin n_in → ℚ) :
    Fin n_out → ℚ :=
  fun o => L.non_linearity (L.bias o + ∑ i : Fin n_in, L.weight o i * x i)

/-- Applying a fully-connected layer to a batch of input rows (a tensor of
shape [B, n_in]), as the layers in fully_connected.py are applied. -/
def batchRun {B n_in n_out : ℕ} (L : FullyConnectedLayer n_in n_out)
    (x : Fin B → Fin n_in → ℚ) : Fin B → Fin n_out → ℚ :=
  fun b => L.run (x b)

/-- `input.view(b * s, n)` in `FullyConnectedLatentVariable.generate`
(fully_connected.py line 84): row-major flattening of the batch and
sequence dimensions. -/
def flat3 {B S N : ℕ} (x : Fin B → Fin S → Fin N → ℚ)
    (i : Fin (B * S)) (j : Fin N) : ℚ :=
  x ⟨i.1 / S, by
        have hi := i.2
        rcases Nat.eq_zero_or_pos S with h | h
        · exact absurd hi (by simp [h])
        · exact Nat.div_lt_of_lt_mul (lt_of_lt_of_eq hi (Nat.mul_comm B S))⟩
    ⟨i.1 % S, by
        have hi := i.2
        rcases Nat.eq_zero_or_pos S with h | h
        · exact absurd hi (by simp [h])
        · exact Nat.mod_lt _ h⟩ j

/-- `.view(b, s, -1)` in `FullyConnectedLatentVariable.generate`
(fully_connected.py lines 85-86): reshaping a [B*S, D] result back to
[B, S, D]. -/
def unflat3 {B S D : ℕ} (r : Fin (B * S) → Fin D → ℚ)
    (b : Fin B) (s : Fin S) (d : Fin D) : ℚ :=
  r ⟨b.1 * S + s.1, by
        have h1 : b.1 * S + s.1 < (b.1 + 1) * S := by
          have hs := s.isLt
          calc b.1 * S + s.1 < b.1 * S + S := by omega
          _ = (b.1 + 1) * S := by ring
        exact lt_of_lt_of_le h1 (Nat.mul_le_mul_right S b.isLt)⟩ d

/-- `tensor.mean(dim=1)` on a [B, S, D] tensor, as used in
`re_init_approx_posterior` (fully_connected.py lines 122-123). -/
def meanDim1 {B S D : ℕ} (t : Fin B × Fin S × Fin D → ℚ)
    (p : Fin B × Fin D) : ℚ :=
  (∑ s : Fin S, t (p.1, s, p.2)) / (S : ℚ)

/-- State of `FullyConnectedLatentVariable`
(src/lib/modules/latent_variables/fully_connected.py): the approximate
posterior (over index [B, D]) and prior (over index [B, S, D])
distributions plus the learned projection layers.  In the source the gate
layers are only constructed when `inference_procedure` is not direct; they
are carried here unconditionally and used only in the non-direct branch of
`infer`, exactly as in the source. -/
structure FullyConnectedLatentVariable (B S D NI NG : ℕ) where
  inference_procedure : String
  approx_post_mean : FullyConnectedLayer NI D
  approx_post_log_var : FullyConnectedLayer NI D
  approx_post_mean_gate : FullyConnectedLayer NI D
  approx_post_log_var_gate : FullyConnectedLayer NI D
  prior_mean : FullyConnectedLayer NG D
  prior_log_var : FullyConnectedLayer NG D
  approx_post : Normal (Fin B × Fin D)
  prior : Normal (Fin B × Fin S × Fin D)

/-- `FullyConnectedLatentVariable.infer` (fully_connected.py lines 51-70):
computes the candidate posterior statistics from `input`; overwrites the
posterior directly under the direct procedure, otherwise blends
`gate * detach(old) + (1 - gate) * candidate` per element; returns
`approx_post.sample(resample=True)` (default `n_samples = 1`) together
with the updated state. -/
def FullyConnectedLatentVariable.infer {B S D NI NG : ℕ}
    (lv : FullyConnectedLatentVariable B S D NI NG) (sdev : ℚ → ℚ)
    (input : Fin B → Fin NI → ℚ) (fresh : Fin 1 → Fin B × Fin D → ℚ) :
    (Fin 1 → Fin B × Fin D → ℚ) × FullyConnectedLatentVariable B S D NI NG :=
  let approx_post_mean := batchRun lv.approx_post_mean input
  let approx_post_log_var := batchRun lv.approx_post_log_var input
  let post : Normal (Fin B × Fin D) :=
    if lv.inference_procedure = "direct" then
      { lv.approx_post with
          mean := fun p => approx_post_mean p.1 p.2
          log_var := fun p => approx_post_log_var p.1 p.2 }
    else
      let approx_post_mean_gate := batchRun lv.approx_post_mean_gate input
      let approx_post_log_var_gate := batchRun lv.approx_post_log_var_gate input
      { lv.approx_post with
          mean := fun p =>
            approx_post_mean_gate p.1 p.2 * detach lv.approx_post.mean p
              + (1 - approx_post_mean_gate p.1 p.2) * approx_post_mean p.1 p.2
          log_var := fun p =>
            approx_post_log_var_gate p.1 p.2 * detach lv.approx_post.log_var p
              + (1 - approx_post_log_var_gate p.1 p.2) * approx_post_log_var p.1 p.2 }
  let s := post.sample sdev 1 true fresh
  (s.1, { lv with approx_post := s.2 })

/-- `FullyConnectedLatentVariable.generate` (fully_connected.py lines
72-89): when `input` is given (shape [B, S, NG]) it is flattened to
[B*S, NG], the prior layers are run, the results reshaped back to
[B, S, D] and stored as the prior parameters; when `input` is `none` the
stored prior is reused.  Then the prior (if `gen`) or the approximate
posterior (otherwise) is sampled with `resample=True` and `n_samples`
samples.  Fresh noise for each distribution is supplied externally. -/
def FullyConnectedLatentVariable.generate {B S D NI NG : ℕ}
    (lv : FullyConnectedLatentVariable B S D NI NG) (sdev : ℚ → ℚ)
    (input : Option (Fin B → Fin S → Fin NG → ℚ)) (gen : Bool) (n_samples : ℕ)
    (freshPrior : Fin n_samples → Fin B × Fin S × Fin D → ℚ)
    (freshPost : Fin n_samples → Fin B × Fin D → ℚ) :
    ((Fin n_samples → Fin B × Fin S × Fin D → ℚ) ⊕ (Fin n_samples → Fin B × Fin D → ℚ))
      × FullyConnectedLatentVariable B S D NI NG :=
  let lv1 :=
    match input with
    | none => lv
    | some x =>
      let flat := flat3 x
      let m := unflat3 (fun i => lv.prior_mean.run (flat i))
      let v := unflat3 (fun i => lv.prior_log_var.run (flat i))
      { lv with prior := { lv.prior with
          mean := fun p => m p.1 p.2.1 p.2.2
          log_var := fun p => v p.1 p.2.1 p.2.2 } }
  if gen then
    let s := lv1.prior.sample sdev n_samples true freshPrior
    (Sum.inl s.1, { lv1 with prior := s.2 })
  else
    let s := lv1.approx_post.sample sdev n_samples true freshPost
    (Sum.inr s.1, { lv1 with approx_post := s.2 })

/-- `FullyConnectedLatentVariable.re_init_approx_posterior`
(fully_connected.py lines 118-124): seeds the approximate posterior from
the detached copy (`.data.clone()`) of the prior statistics averaged over
the sequence-sample dimension (dim 1), via `approx_post.re_init`. -/
def FullyConnectedLatentVariable.re_init_approx_posterior {B S D NI NG : ℕ}
    (lv : FullyConnectedLatentVariable B S D NI NG) :
    FullyConnectedLatentVariable B S D NI NG :=
  let mean := meanDim1 (detach lv.prior.mean)
  let log_var := meanDim1 (detach lv.prior.log_var)
  { lv with approx_post := lv.approx_post.re_init (some mean) (some log_var) }

/-- `FullyConnectedLatentVariable.re_init` (fully_connected.py lines
111-116): first `re_init_approx_posterior()`, then `prior.re_init()` —
in that order, as written in the source. -/
def FullyConnectedLatentVariable.re_init {B S D NI NG : ℕ}
    (lv : FullyConnectedLatentVariable B S D NI NG) :
    FullyConnectedLatentVariable B S D NI NG :=
  let lv1 := lv.re_init_approx_posterior
  { lv1 with prior := lv1.prior.re_init none none }

/-! ## Parameter identity model

PyTorch parameter tensors are owned by exactly one sub-module; two
distinct sub-modules never share a parameter object.  A parameter is
identified by its owning sub-module and an index within that module; the
number of parameter tensors per module is an arbitrary `counts` function
(it varies with the model type but never affects ownership). -/

/-- The sub-modules of the SVG model and of its latent variable
(svg.py `_construct`, fully_connected.py `_construct`). -/
inductive SVGComponent
  | encoder
  | decoder
  | decoderLstm
  | decoderLstmOutput
  | outputDist
  | levelInferenceNet
  | levelGenerativeNet
  | approxPostMeanLayer
  | approxPostLogVarLayer
  | approxPostMeanGateLayer
  | approxPostLogVarGateLayer
  | priorMeanLayer
  | priorLogVarLayer
deriving DecidableEq

/-- A parameter tensor identity: owning sub-module plus index. -/
abbrev ParamId := SVGComponent × ℕ

/-- `list(module.parameters())` for one sub-module. -/
def moduleParams (counts : SVGComponent → ℕ) (c : SVGComponent) : List ParamId :=
  (List.range (counts c)).map (fun i => (c, i))

/-- `FullyConnectedLatentVariable.inference_parameters` (fully_connected.py
lines 132-142): the posterior mean and log-var layers, plus the two gate
layers when `inference_procedure` is not direct. -/
def FullyConnectedLatentVariable.inference_parameters
    (counts : SVGComponent → ℕ) (inference_procedure : String) : List ParamId :=
  moduleParams counts .approxPostMeanLayer
    ++ moduleParams counts .approxPostLogVarLayer
    ++ (if inference_procedure ≠ "direct" then
          moduleParams counts .approxPostMeanGateLayer
            ++ moduleParams counts .approxPostLogVarGateLayer
        else [])

/-- `FullyConnectedLatentVariable.generative_parameters` (fully_connected.py
lines 144-151): the prior mean and log-var layers. -/
def FullyConnectedLatentVariable.generative_parameters
    (counts : SVGComponent → ℕ) : List ParamId :=
  moduleParams counts .priorMeanLayer ++ moduleParams counts .priorLogVarLayer

/-- Modelled from the spec: `LSTMLatentLevel` (lib.modules.latent_levels is
not under src/) owns an inference sub-network, a generative sub-network and
the latent variable (spec sections 2 and 4.3); its inference parameters
are its inference sub-network parameters plus the latent variable
inference parameters. -/
def LSTMLatentLevel.inference_parameters
    (counts : SVGComponent → ℕ) (inference_procedure : String) : List ParamId :=
  moduleParams counts .levelInferenceNet
    ++ FullyConnectedLatentVariable.inference_parameters counts inference_procedure

/-- Modelled from the spec: `LSTMLatentLevel` generative parameters are its
generative sub-network parameters plus the latent variable generative
parameters (spec sections 2 and 4.3). -/
def LSTMLatentLevel.generative_parameters
    (counts : SVGComponent → ℕ) : List ParamId :=
  moduleParams counts .levelGenerativeNet
    ++ FullyConnectedLatentVariable.generative_parameters counts

/-- `SVG.inference_parameters` (svg.py lines 148-155): the encoder
parameters plus the latent level inference parameters. -/
def SVG.inference_parameters
    (counts : SVGComponent → ℕ) (inference_procedure : String) : List ParamId :=
  moduleParams counts .encoder
    ++ LSTMLatentLevel.inference_parameters counts inference_procedure

/-- `SVG.generative_parameters` (svg.py lines 157-165): the decoder
parameters, the latent level generative parameters and the decoder LSTM
parameters.  The `decoder_lstm_output` layer appears nowhere. -/
def SVG.generative_parameters (counts : SVGComponent → ℕ) : List ParamId :=
  moduleParams counts .decoder
    ++ LSTMLatentLevel.generative_parameters counts
    ++ moduleParams counts .decoderLstm

/-- The sub-modules applied in the body of `SVG.generate` (svg.py lines
96-115): the latent level (delegated via its generative sub-network), the
decoder LSTM, its output head, the decoder, and the output distribution. -/
def SVG.generate_modules : List SVGComponent :=
  [.levelGenerativeNet, .decoderLstm, .decoderLstmOutput, .decoder, .outputDist]

/-! ## SVG construction and re_init -/

/-- The architecture selected by `SVG._construct` (svg.py lines 29-70). -/
structure SVGArch where
  backbone : String
  encoder_args : ℕ × ℕ
  decoder_args : ℕ × ℕ
  n_variables : ℕ
  inference_procedure : String
  latent_inference_procedure : String
deriving DecidableEq

/-- `SVG._construct` (svg.py lines 22-70): lower-cases the configured model
type, selects the backbone encoder/decoder and latent width for the three
supported types, and raises for any other value.  The latent variable
inference procedure is hard-coded to direct (svg.py line 34). -/
def svgConstruct (model_type_config inference_procedure_config : String) :
    Except String SVGArch :=
  let model_type := model_type_config.toLower
  let proc := inference_procedure_config.toLower
  if model_type = "sm_mnist" then
    Except.ok { backbone := "dcgan", encoder_args := (128, 1), decoder_args := (128, 1),
                n_variables := 10, inference_procedure := proc,
                latent_inference_procedure := "direct" }
  else if model_type = "kth_actions" then
    Except.ok { backbone := "vgg16", encoder_args := (128, 1), decoder_args := (128, 2),
                n_variables := 32, inference_procedure := proc,
                latent_inference_procedure := "direct" }
  else if model_type = "bair_robot_pushing" then
    Except.ok { backbone := "vgg16", encoder_args := (128, 3), decoder_args := (128, 6),
                n_variables := 64, inference_procedure := proc,
                latent_inference_procedure := "direct" }
  else
    Except.error ("SVG model type must be one of sm_mnist, kth_actions, or bair_robot_pushing. Invalid model type: " ++ model_type ++ ".")

/-- The attribute names bound on class `SVG` itself in svg.py. -/
def svgClassAttrs : List String :=
  ["_construct", "_get_encoding_form", "infer", "generate", "step", "re_init",
   "inference_parameters", "generative_parameters", "encoder", "decoder",
   "latent_levels", "decoder_lstm", "decoder_lstm_output", "output_dist",
   "inference_procedure"]

/-- Modelled from the spec: the surface of the `LatentVariableModel` base
class (lib/models/latent_variable_model.py is not under src/), taken from
the interface the core exposes per spec section 6: re_init, infer,
generate, step, losses, free_energy, inference_parameters,
generative_parameters, inference_mode, generative_mode, train, eval. -/
def latentVariableModelAttrs : List String :=
  ["re_init", "infer", "generate", "step", "losses", "free_energy",
   "inference_parameters", "generative_parameters", "inference_mode",
   "generative_mode", "train", "eval"]

/-- Python attribute resolution on an SVG instance: an attribute resolves
when it is bound on class `SVG` or on the base class; otherwise access
raises AttributeError. -/
def svgResolvable (name : String) : Bool :=
  (svgClassAttrs ++ latentVariableModelAttrs).contains name

/-- Python runtime errors relevant here. -/
inductive PyError
  | attributeError
  | typeError
deriving DecidableEq

/-- The successive actions of `SVG.re_init` (svg.py lines 130-146). -/
inductive ReInitAction
  | levelReInit
  | decoderLstmReInit
  | clearHidden
  | encodePrev
  | seedPrior
  | seedApproxPost
deriving DecidableEq

/-- `SVG.re_init(input)` (svg.py lines 130-146) as a run: it re-initialises
the latent level and the decoder LSTM, clears `_h`/`_skip`, and then
evaluates `self.get_encoding_form(input)` — an attribute lookup on the
instance — before encoding into `_prev_h`/`_prev_skip`, seeding the prior
via `generate(..., gen=True)` and reseeding the approximate posterior.
Returns the actions performed and the error, if any, that stopped the
run. -/
def SVG.re_init_run {Frame : Type} (_input : Frame) :
    List ReInitAction × Option PyError :=
  if svgResolvable "get_encoding_form" then
    ([.levelReInit, .decoderLstmReInit, .clearHidden, .encodePrev,
      .seedPrior, .seedApproxPost], none)
  else
    ([.levelReInit, .decoderLstmReInit, .clearHidden], some .attributeError)

/-! ## Training loop (src/util/train_val.py) -/

/-- A free-energy scalar that may be NaN: `none` models NaN; any arithmetic
involving NaN yields NaN, as in IEEE accumulation. -/
abbrev FE := Option ℚ

/-- Addition on free-energy scalars; NaN propagates. -/
def feAdd : FE → FE → FE
  | some a, some b => some (a + b)
  | _, _ => none

/-- `np.isnan` on a free-energy scalar. -/
def isnan : FE → Bool
  | none => true
  | some _ => false

/-- The observable operations of one batch of `train` (train_val.py). -/
inductive TrainEvent
  | reInitModel
  | zeroStoredInf
  | zeroStoredGen
  | zeroCurrentInf
  | zeroCurrentGen
  | inferenceMode
  | generativeMode
  | modelGenerate
  | modelInfer
  | lossesBackwardRetain
  | collectInf
  | collectGen
  | accumulateFE
  | modelStep
  | nanReport
  | breakpointHit
  | totalBackward
  | infOptStep
  | genOptStep
deriving DecidableEq

/-- One sequence step of `train` (train_val.py lines 58-122): inference
mode, clear current inference gradients, a zero-shot generate with a
retained-graph backward, `n_inf_iter` refinement iterations each doing
infer/generate/backward, then collect the inference gradients, switch to
generative mode, generate, accumulate the free energy into the total, and
advance the model. -/
def trainStepEvents (n_inf_iter : ℕ) : List TrainEvent :=
  [.inferenceMode, .zeroCurrentInf, .modelGenerate, .lossesBackwardRetain]
    ++ (List.replicate n_inf_iter
          [TrainEvent.modelInfer, .modelGenerate, .lossesBackwardRetain]).flatten
    ++ [.collectInf, .generativeMode, .modelGenerate, .accumulateFE, .modelStep]

/-- One batch of `train` (train_val.py lines 35-142).  The per-step free
energies returned by the external model are given as `fe`; the batch total
is their running sum starting from `0.`.  After the sequence loop the NaN
check (line 124) runs: on NaN it prints a report and drops into the
debugger breakpoint, which — modelled from the spec (sections 5 and 7,
ipdb is not under src/) — halts the run; otherwise the generative
backward, the generative collect and both optimizer steps follow. -/
def trainBatchEvents (n_inf_iter : ℕ) (fe : List FE) : List TrainEvent :=
  let total := fe.foldl feAdd (some 0)
  [.reInitModel, .zeroStoredInf, .zeroCurrentInf, .zeroStoredGen, .zeroCurrentGen]
    ++ (fe.map (fun _ => trainStepEvents n_inf_iter)).flatten
    ++ (if isnan total then [.nanReport, .breakpointHit]
        else [.zeroCurrentGen, .totalBackward, .collectGen, .infOptStep, .genOptStep])

/-! ## Validation loop (src/util/train_val.py lines 156-172) -/

/-- The observable operations of `validate`. -/
inductive ValEvent
  | modelEval
  | inferCall
  | generateCall
  | stepCall
deriving DecidableEq

/-- The number of required positional arguments (besides self) of
`SVG.re_init` (svg.py line 130: `def re_init(self, input)`). -/
def SVG.re_init_required_args : ℕ := 1

/-- A Python call passing `args` positional arguments to a method requiring
`required` of them: TypeError when too few are supplied, before the body
runs. -/
def pyCall (required args : ℕ) : Except PyError Unit :=
  if args < required then Except.error .typeError else Except.ok ()

/-- One batch iteration of `validate` (train_val.py lines 167-172):
`model.re_init()` is called with zero arguments, then each sequence step
does infer, generate and step.  Returns the events performed and the
error, if any, that stopped the iteration. -/
def validateBatch (n_steps : ℕ) : List ValEvent × Option PyError :=
  match pyCall SVG.re_init_required_args 0 with
  | Except.error e => ([], some e)
  | Except.ok _ =>
      ((List.replicate n_steps [ValEvent.inferCall, .generateCall, .stepCall]).flatten,
       none)

/-- The batch loop of `validate`, over `n_batches` batches of `n_steps`
frames each, stopping at the first uncaught error. -/
def validateBatches : ℕ → ℕ → List ValEvent × Option PyError
  | 0, _ => ([], none)
  | n + 1, n_steps =>
      let b := validateBatch n_steps
      match b.2 with
      | some e => (b.1, some e)
      | none =>
          let rest := validateBatches n n_steps
          (b.1 ++ rest.1, rest.2)

/-- `validate(data, model)` (train_val.py lines 156-172): `model.eval()`
followed by the batch loop. -/
def validateRun (n_batches n_steps : ℕ) : List ValEvent × Option PyError :=
  let r := validateBatches n_batches n_steps
  (ValEvent.modelEval :: r.1, r.2)

/-! ## Helper lemmas -/

lemma fst_eq_of_mem_moduleParams {counts : SVGComponent → ℕ}
    {c : SVGComponent} {p : ParamId} (h : p ∈ moduleParams counts c) :
    p.1 = c := by
  simp only [moduleParams, List.mem_map, List.mem_range] at h
  obtain ⟨i, _, rfl⟩ := h
  rfl

lemma fst_mem_of_mem_inference_parameters {counts : SVGComponent → ℕ}
    {proc : String} {p : ParamId}
    (h : p ∈ FullyConnectedLatentVariable.inference_parameters counts proc) :
    p.1 ∈ [SVGComponent.approxPostMeanLayer, .approxPostLogVarLayer,
           .approxPostMeanGateLayer, .approxPostLogVarGateLayer] := by
  simp only [FullyConnectedLatentVariable.inference_parameters,
    List.mem_append] at h
  rcases h with h | h
  · rcases h with h | h
    · simp [fst_eq_of_mem_moduleParams h]
    · simp [fst_eq_of_mem_moduleParams h]
  · split at h
    · rcases List.mem_append.mp h with h | h
      · simp [fst_eq_of_mem_moduleParams h]
      · simp [fst_eq_of_mem_moduleParams h]
    · simp at h

lemma fst_mem_of_mem_generative_parameters {counts : SVGComponent → ℕ}
    {p : ParamId}
    (h : p ∈ FullyConnectedLatentVariable.generative_parameters counts) :
    p.1 ∈ [SVGComponent.priorMeanLayer, .priorLogVarLayer] := by
  simp only [FullyConnectedLatentVariable.generative_parameters,
    List.mem_append] at h
  rcases h with h | h
  · simp [fst_eq_of_mem_moduleParams h]
  · simp [fst_eq_of_mem_moduleParams h]

lemma fst_mem_of_mem_svg_inference_parameters {counts : SVGComponent → ℕ}
    {proc : String} {p : ParamId}
    (h : p ∈ SVG.inference_parameters counts proc) :
    p.1 ∈ [SVGComponent.encoder, .levelInferenceNet, .approxPostMeanLayer,
           .approxPostLogVarLayer, .approxPostMeanGateLayer,
           .approxPostLogVarGateLayer] := by
  simp only [SVG.inference_parameters, LSTMLatentLevel.inference_parameters,
    List.mem_append] at h
  rcases h with h | h | h
  · simp [fst_eq_of_mem_moduleParams h]
  · simp [fst_eq_of_mem_moduleParams h]
  · have := fst_mem_of_mem_inference_parameters h
    simp at this
    rcases this with h1 | h1 | h1 | h1 <;> simp [h1]

lemma fst_mem_of_mem_svg_generative_parameters {counts : SVGComponent → ℕ}
    {p : ParamId}
    (h : p ∈ SVG.generative_parameters counts) :
    p.1 ∈ [SVGComponent.decoder, .levelGenerativeNet, .priorMeanLayer,
           .priorLogVarLayer, .decoderLstm] := by
  simp only [SVG.generative_parameters, LSTMLatentLevel.generative_parameters,
    List.mem_append] at h
  rcases h with (h | h | h) | h
  · simp [fst_eq_of_mem_moduleParams h]
  · simp [fst_eq_of_mem_moduleParams h]
  · have := fst_mem_of_mem_generative_parameters h
    simp at this
    rcases this with h1 | h1 <;> simp [h1]
  · simp [fst_eq_of_mem_moduleParams h]

/-! ## Claims -/

/-- Claim C3: for every parameter-count assignment (covering all three
supported model types) and every latent inference procedure (direct or
not), the inference and generative parameter collections are disjoint —
no parameter appears in both — both for the
`FullyConnectedLatentVariable` and for the `SVG` model
(`List.Disjoint l₁ l₂` means no element of `l₁` is an element of `l₂`,
i.e. the intersection is empty). -/
theorem claim_c3 (counts : SVGComponent → ℕ) (proc : String) :
    List.Disjoint (FullyConnectedLatentVariable.inference_parameters counts proc)
        (FullyConnectedLatentVariable.generative_parameters counts)
    ∧ List.Disjoint (SVG.inference_parameters counts proc)
        (SVG.generative_parameters counts) := by
  constructor
  · intro p hinf hgen
    have h1 := fst_mem_of_mem_inference_parameters hinf
    have h2 := fst_mem_of_mem_generative_parameters hgen
    simp at h1 h2
    rcases h1 with h1 | h1 | h1 | h1 <;> rcases h2 with h2 | h2 <;>
      rw [h1] at h2 <;> exact absurd h2 (by simp)
  · intro p hinf hgen
    have h1 := fst_mem_of_mem_svg_inference_parameters hinf
    have h2 := fst_mem_of_mem_svg_generative_parameters hgen
    simp at h1 h2
    rcases h1 with h1 | h1 | h1 | h1 | h1 | h1 <;>
      rcases h2 with h2 | h2 | h2 | h2 | h2 <;>
      rw [h1] at h2 <;> exact absurd h2 (by simp)

/-- Claim C9: the parameters of the `decoder_lstm_output` layer belong to
neither `SVG.inference_parameters()` nor `SVG.generative_parameters()`,
for every parameter-count assignment and inference procedure, even though
that layer is one of the modules applied by `SVG.generate`. -/
theorem claim_c9 (counts : SVGComponent → ℕ) (proc : String) (p : ParamId)
    (h : p ∈ moduleParams counts SVGComponent.decoderLstmOutput) :
    p ∉ SVG.inference_parameters counts proc
    ∧ p ∉ SVG.generative_parameters counts
    ∧ SVGComponent.decoderLstmOutput ∈ SVG.generate_modules := by
  have hp := fst_eq_of_mem_moduleParams h
  refine ⟨fun hmem => ?_, fun hmem => ?_, by simp [SVG.generate_modules]⟩
  · have := fst_mem_of_mem_svg_inference_parameters hmem
    rw [hp] at this
    simp at this
  · have := fst_mem_of_mem_svg_generative_parameters hmem
    rw [hp] at this
    simp at this

/-- Witness for claim C9 at a concrete input: one parameter per module,
the direct procedure, and the first parameter of `decoder_lstm_output`. -/
theorem claim_c9_witness :
    ((SVGComponent.decoderLstmOutput, 0) : ParamId)
        ∈ moduleParams (fun _ => 1) SVGComponent.decoderLstmOutput
    ∧ (((SVGComponent.decoderLstmOutput, 0) : ParamId)
          ∉ SVG.inference_parameters (fun _ => 1) "direct"
        ∧ ((SVGComponent.decoderLstmOutput, 0) : ParamId)
          ∉ SVG.generative_parameters (fun _ => 1)
        ∧ SVGComponent.decoderLstmOutput ∈ SVG.generate_modules) :=
  ⟨by decide, claim_c9 (fun _ => 1) "direct" (SVGComponent.decoderLstmOutput, 0) (by decide)⟩

/-- Claim C8: constructing an SVG model with a model type whose lower-cased
value is not one of sm_mnist, kth_actions, bair_robot_pushing raises
immediately; for the three supported types construction succeeds. -/
theorem claim_c8 (model_type proc : String) :
    (svgConstruct model_type proc).isOk
      = (["sm_mnist", "kth_actions", "bair_robot_pushing"].contains model_type.toLower) := by
  simp only [svgConstruct]
  by_cases h1 : model_type.toLower = "sm_mnist"
  · simp [h1, Except.isOk, Except.toBool]
  · by_cases h2 : model_type.toLower = "kth_actions"
    · simp [h1, h2, Except.isOk, Except.toBool]
    · by_cases h3 : model_type.toLower = "bair_robot_pushing"
      · simp [h1, h2, h3, Except.isOk, Except.toBool]
      · simp [h1, h2, h3, Except.isOk, Except.toBool]

/-- Claim C1 (refuted, code bug): for every first frame, `SVG.re_init`
stops with an AttributeError instead of completing: svg.py line 144 calls
`self.get_encoding_form(input)`, but the class defines the method as
`_get_encoding_form` (and `infer` calls it under that name), and the base
class surface has no `get_encoding_form` either, so the run clears the
hidden state but never encodes the frame, never seeds the prior and never
reseeds the approximate posterior. -/
theorem claim_c1 {Frame : Type} (first_frame : Frame) :
    (SVG.re_init_run first_frame).2 = some PyError.attributeError
    ∧ ReInitAction.encodePrev ∉ (SVG.re_init_run first_frame).1
    ∧ ReInitAction.seedPrior ∉ (SVG.re_init_run first_frame).1
    ∧ ReInitAction.seedApproxPost ∉ (SVG.re_init_run first_frame).1
    ∧ svgResolvable "get_encoding_form" = false
    ∧ svgResolvable "_get_encoding_form" = true := by
  refine ⟨?_, ?_, ?_, ?_, ?_, ?_⟩ <;>
    simp [SVG.re_init_run, svgResolvable, svgClassAttrs, latentVariableModelAttrs]

/-- Claim C7: when the accumulated total free energy of a batch is NaN, the
train loop reports and halts at the debugger breakpoint after the sequence
loop, and neither the generative backward nor either optimizer step is
ever performed for that batch. -/
theorem claim_c7 (n_inf_iter : ℕ) (fe : List FE)
    (h : isnan (fe.foldl feAdd (some 0)) = true) :
    TrainEvent.nanReport ∈ trainBatchEvents n_inf_iter fe
    ∧ (trainBatchEvents n_inf_iter fe).getLast? = some TrainEvent.breakpointHit
    ∧ TrainEvent.totalBackward ∉ trainBatchEvents n_inf_iter fe
    ∧ TrainEvent.infOptStep ∉ trainBatchEvents n_inf_iter fe
    ∧ TrainEvent.genOptStep ∉ trainBatchEvents n_inf_iter fe := by
  have hstep : ∀ e ∈ trainStepEvents n_inf_iter,
      e ≠ TrainEvent.totalBackward ∧ e ≠ TrainEvent.infOptStep
        ∧ e ≠ TrainEvent.genOptStep := by
    intro e he
    simp only [trainStepEvents, List.mem_append] at he
    obtain (he | he) | he := he
    · simp only [List.mem_cons, List.not_mem_nil, or_false] at he
      obtain rfl | rfl | rfl | rfl := he <;> exact (by decide)
    · simp only [List.mem_flatten, List.mem_replicate] at he
      obtain ⟨l, ⟨-, rfl⟩, hl⟩ := he
      simp only [List.mem_cons, List.not_mem_nil, or_false] at hl
      obtain rfl | rfl | rfl := hl <;> exact (by decide)
    · simp only [List.mem_cons, List.not_mem_nil, or_false] at he
      obtain rfl | rfl | rfl | rfl | rfl := he <;> exact (by decide)
  have hmemstep : ∀ e ∈ (fe.map (fun _ => trainStepEvents n_inf_iter)).flatten,
      e ≠ TrainEvent.totalBackward ∧ e ≠ TrainEvent.infOptStep
        ∧ e ≠ TrainEvent.genOptStep := by
    intro e he
    simp only [List.mem_flatten, List.mem_map] at he
    obtain ⟨l, ⟨_, _, rfl⟩, hl⟩ := he
    exact hstep e hl
  simp only [trainBatchEvents, h, if_true]
  refine ⟨?_, ?_, ?_, ?_, ?_⟩
  · simp
  · rw [List.getLast?_append_of_ne_nil]
    · rfl
    · simp
  · intro hmem
    rcases List.mem_append.mp hmem with hmem | hmem
    · rcases List.mem_append.mp hmem with hmem | hmem
      · exact absurd hmem (by decide)
      · exact absurd rfl (hmemstep _ hmem).1
    · exact absurd hmem (by decide)
  · intro hmem
    rcases List.mem_append.mp hmem with hmem | hmem
    · rcases List.mem_append.mp hmem with hmem | hmem
      · exact absurd hmem (by decide)
      · exact absurd rfl (hmemstep _ hmem).2.1
    · exact absurd hmem (by decide)
  · intro hmem
    rcases List.mem_append.mp hmem with hmem | hmem
    · rcases List.mem_append.mp hmem with hmem | hmem
      · exact absurd hmem (by decide)
      · exact absurd rfl (hmemstep _ hmem).2.2
    · exact absurd hmem (by decide)

/-- Witness for claim C7 at a concrete input: one inference iteration and a
single sequence step whose free energy is NaN. -/
theorem claim_c7_witness :
    isnan (([none] : List FE).foldl feAdd (some 0)) = true
    ∧ (TrainEvent.nanReport ∈ trainBatchEvents 1 [none]
        ∧ (trainBatchEvents 1 [none]).getLast? = some TrainEvent.breakpointHit
        ∧ TrainEvent.totalBackward ∉ trainBatchEvents 1 [none]
        ∧ TrainEvent.infOptStep ∉ trainBatchEvents 1 [none]
        ∧ TrainEvent.genOptStep ∉ trainBatchEvents 1 [none]) :=
  ⟨by decide, claim_c7 1 [none] (by decide)⟩

/-- Claim C10: for every non-empty data loader, `validate` calls
`model.re_init()` with no observation argument while `SVG.re_init`
requires one, so the first batch iteration stops with a TypeError and no
infer/generate/step call is ever performed. -/
theorem claim_c10 (n_batches n_steps : ℕ) (h : 0 < n_batches) :
    (validateRun n_batches n_steps).2 = some PyError.typeError
    ∧ ValEvent.inferCall ∉ (validateRun n_batches n_steps).1
    ∧ ValEvent.generateCall ∉ (validateRun n_batches n_steps).1
    ∧ ValEvent.stepCall ∉ (validateRun n_batches n_steps).1 := by
  obtain ⟨n, rfl⟩ : ∃ n, n_batches = n + 1 := by
    cases n_batches with
    | zero => exact absurd h (by simp)
    | succ n => exact ⟨n, rfl⟩
  refine ⟨rfl, ?_, ?_, ?_⟩ <;>
    simp [validateRun, validateBatches, validateBatch, pyCall,
      SVG.re_init_required_args]

/-- Witness for claim C10 at a concrete input: one batch of three steps. -/
theorem claim_c10_witness :
    0 < 1
    ∧ ((validateRun 1 3).2 = some PyError.typeError
        ∧ ValEvent.inferCall ∉ (validateRun 1 3).1
        ∧ ValEvent.generateCall ∉ (validateRun 1 3).1
        ∧ ValEvent.stepCall ∉ (validateRun 1 3).1) :=
  ⟨by decide, claim_c10 1 3 (by decide)⟩

lemma flat3_mk {B S N : ℕ} (x : Fin B → Fin S → Fin N → ℚ)
    (b : Fin B) (s : Fin S) (h : b.1 * S + s.1 < B * S) :
    flat3 x ⟨b.1 * S + s.1, h⟩ = x b s := by
  have hS : 0 < S := s.pos
  have hdiv : (b.1 * S + s.1) / S = b.1 := by
    rw [Nat.mul_comm, Nat.mul_add_div hS, Nat.div_eq_of_lt s.isLt, Nat.add_zero]
  have hmod : (b.1 * S + s.1) % S = s.1 := by
    rw [Nat.mul_comm, Nat.mul_add_mod, Nat.mod_eq_of_lt s.isLt]
  funext j
  show x ⟨(b.1 * S + s.1) / S, _⟩ ⟨(b.1 * S + s.1) % S, _⟩ j = x b s j
  congr 1
  · exact Fin.ext hdiv
  · exact Fin.ext hmod

lemma unflat3_flat3 {B S N D : ℕ} (g : (Fin N → ℚ) → Fin D → ℚ)
    (x : Fin B → Fin S → Fin N → ℚ) (b : Fin B) (s : Fin S) (d : Fin D) :
    unflat3 (fun i => g (flat3 x i)) b s d = g (x b s) d := by
  show g (flat3 x ⟨b.1 * S + s.1, _⟩) d = g (x b s) d
  rw [flat3_mk]

/-- Claim C2 (refuted) in its amended form: `re_init()` first re-initialises
the approximate posterior from the current — not yet reset — prior via
`re_init_approx_posterior`, and only then re-initialises the prior to
zero; hence after `re_init` the prior statistics are zeros with cleared
noise, while the posterior is seeded from the sequence-dimension mean of
the prior statistics as they were before the reset, not from zeros. -/
theorem claim_c2_amended {B S D NI NG : ℕ}
    (lv : FullyConnectedLatentVariable B S D NI NG) :
    lv.re_init.prior.mean = (fun _ => 0)
    ∧ lv.re_init.prior.log_var = (fun _ => 0)
    ∧ lv.re_init.prior.noise = none
    ∧ lv.re_init.approx_post.mean
        = (fun p => (∑ s : Fin S, lv.prior.mean (p.1, s, p.2)) / (S : ℚ))
    ∧ lv.re_init.approx_post.log_var
        = (fun p => (∑ s : Fin S, lv.prior.log_var (p.1, s, p.2)) / (S : ℚ))
    ∧ lv.re_init.approx_post.noise = none :=
  ⟨rfl, rfl, rfl, rfl, rfl, rfl⟩

/-- A zero fully-connected layer with identity non-linearity, for concrete
instances. -/
def zeroLayer : FullyConnectedLayer 1 1 :=
  { weight := fun _ _ => 0, bias := fun _ => 0, non_linearity := id }

/-- A concrete latent-variable state whose prior mean is 1 everywhere. -/
def lvC2 : FullyConnectedLatentVariable 1 1 1 1 1 :=
  { inference_procedure := "direct"
    approx_post_mean := zeroLayer
    approx_post_log_var := zeroLayer
    approx_post_mean_gate := zeroLayer
    approx_post_log_var_gate := zeroLayer
    prior_mean := zeroLayer
    prior_log_var := zeroLayer
    approx_post := { mean := fun _ => 0, log_var := fun _ => 0, noise := none }
    prior := { mean := fun _ => 1, log_var := fun _ => 0, noise := none } }

/-- Counterexample to claim C2 as stated: on a state whose prior mean is 1,
after `re_init()` the approximate posterior mean is 1, not zero — because
the source calls `re_init_approx_posterior()` before `prior.re_init()`,
the posterior is seeded from the old prior, not from the freshly zeroed
one. -/
theorem claim_c2_counterexample :
    lvC2.re_init.approx_post.mean (0, 0) ≠ 0 := by
  show ((∑ s : Fin 1, lvC2.prior.mean (0, s, 0)) / ((1 : ℕ) : ℚ)) ≠ 0
  norm_num [lvC2]

/-- Claim C4: `re_init_approx_posterior()` sets the approximate posterior
mean (resp. log_var) to the mean over the sequence-sample dimension
(dim 1) of the detached prior mean (resp. log_var), resets the posterior
stored noise, and leaves the prior untouched. -/
theorem claim_c4 {B S D NI NG : ℕ}
    (lv : FullyConnectedLatentVariable B S D NI NG) :
    lv.re_init_approx_posterior.approx_post.mean
        = (fun p => (∑ s : Fin S, lv.prior.mean (p.1, s, p.2)) / (S : ℚ))
    ∧ lv.re_init_approx_posterior.approx_post.log_var
        = (fun p => (∑ s : Fin S, lv.prior.log_var (p.1, s, p.2)) / (S : ℚ))
    ∧ lv.re_init_approx_posterior.approx_post.noise = none
    ∧ lv.re_init_approx_posterior.prior = lv.prior :=
  ⟨rfl, rfl, rfl, rfl⟩

lemma blend_between (g a c : ℚ) (h0 : 0 ≤ g) (h1 : g ≤ 1) :
    min a c ≤ g * a + (1 - g) * c ∧ g * a + (1 - g) * c ≤ max a c := by
  constructor
  · rcases le_total a c with h | h
    · rw [min_eq_left h]; nlinarith
    · rw [min_eq_right h]; nlinarith
  · rcases le_total a c with h | h
    · rw [max_eq_right h]; nlinarith
    · rw [max_eq_left h]; nlinarith

/-- The conclusion of claim C5, as a predicate on the inputs of one
non-direct `infer` call: the new posterior mean is
`gate * detach(old mean) + (1 - gate) * candidate mean` elementwise (and
likewise, with its own gate, for log_var); whenever a gate value lies in
[0, 1] the new value lies between the old value and the candidate; and the
call returns the reparameterised sample of the updated posterior drawn
with `resample=True`, storing the fresh noise. -/
def c5Statement {B S D NI NG : ℕ} (sdev : ℚ → ℚ)
    (lv : FullyConnectedLatentVariable B S D NI NG)
    (input : Fin B → Fin NI → ℚ) (fresh : Fin 1 → Fin B × Fin D → ℚ) : Prop :=
  let gM := batchRun lv.approx_post_mean_gate input
  let gV := batchRun lv.approx_post_log_var_gate input
  let cM := batchRun lv.approx_post_mean input
  let cV := batchRun lv.approx_post_log_var input
  let newM : Fin B × Fin D → ℚ := fun p =>
    gM p.1 p.2 * lv.approx_post.mean p + (1 - gM p.1 p.2) * cM p.1 p.2
  let newV : Fin B × Fin D → ℚ := fun p =>
    gV p.1 p.2 * lv.approx_post.log_var p + (1 - gV p.1 p.2) * cV p.1 p.2
  ((lv.infer sdev input fresh).2.approx_post.mean = newM)
  ∧ ((lv.infer sdev input fresh).2.approx_post.log_var = newV)
  ∧ (∀ p : Fin B × Fin D, 0 ≤ gM p.1 p.2 → gM p.1 p.2 ≤ 1 →
        min (lv.approx_post.mean p) (cM p.1 p.2) ≤ newM p
          ∧ newM p ≤ max (lv.approx_post.mean p) (cM p.1 p.2))
  ∧ (∀ p : Fin B × Fin D, 0 ≤ gV p.1 p.2 → gV p.1 p.2 ≤ 1 →
        min (lv.approx_post.log_var p) (cV p.1 p.2) ≤ newV p
          ∧ newV p ≤ max (lv.approx_post.log_var p) (cV p.1 p.2))
  ∧ ((lv.infer sdev input fresh).1 = fun k p => newM p + sdev (newV p) * fresh k p)
  ∧ ((lv.infer sdev input fresh).2.approx_post.noise = some ⟨1, fresh⟩)

/-- Claim C5: when the inference procedure is not direct, one `infer` call
updates the posterior by gated blending — the new mean (and, with its own
gate, the new log_var) equals `gate * detach(old) + (1 - gate) * candidate`
elementwise, so each new value lies between the previous value and the
candidate whenever the gate is in [0, 1] — and returns a reparameterised
sample drawn with `resample=True`. -/
theorem claim_c5 {B S D NI NG : ℕ} (sdev : ℚ → ℚ)
    (lv : FullyConnectedLatentVariable B S D NI NG)
    (input : Fin B → Fin NI → ℚ) (fresh : Fin 1 → Fin B × Fin D → ℚ)
    (hproc : lv.inference_procedure ≠ "direct") :
    c5Statement sdev lv input fresh := by
  unfold c5Statement
  simp only [FullyConnectedLatentVariable.infer, if_neg hproc]
  refine ⟨rfl, rfl, ?_, ?_, rfl, rfl⟩
  · intro p h0 h1
    exact blend_between _ _ _ h0 h1
  · intro p h0 h1
    exact blend_between _ _ _ h0 h1

/-- A concrete latent-variable state with a non-direct inference
procedure. -/
def lvC5 : FullyConnectedLatentVariable 1 1 1 1 1 :=
  { inference_procedure := "iterative"
    approx_post_mean := zeroLayer
    approx_post_log_var := zeroLayer
    approx_post_mean_gate := zeroLayer
    approx_post_log_var_gate := zeroLayer
    prior_mean := zeroLayer
    prior_log_var := zeroLayer
    approx_post := { mean := fun _ => 0, log_var := fun _ => 0, noise := none }
    prior := { mean := fun _ => 0, log_var := fun _ => 0, noise := none } }

/-- Witness for claim C5 at a concrete input. -/
theorem claim_c5_witness :
    lvC5.inference_procedure ≠ "direct"
    ∧ c5Statement id lvC5 (fun _ _ => 0) (fun _ _ => 0) :=
  ⟨by decide, claim_c5 id lvC5 (fun _ _ => 0) (fun _ _ => 0) (by decide)⟩

/-- Claim C6: `generate(input, gen, n_samples)` with `input` of shape
[B, S, N] flattens it to [B*S, N], runs the prior layers, reshapes back to
[B, S, D] and stores the result as the prior statistics — elementwise this
equals applying the prior layers to each [b, s] row; with `input = None`
the stored prior statistics are left unchanged; the call returns
`prior.sample(n_samples, resample=True)` when `gen` is true (from the
just-recomputed prior when input was given) and
`approx_post.sample(n_samples, resample=True)` when `gen` is false. -/
theorem claim_c6 {B S D NI NG : ℕ} (sdev : ℚ → ℚ)
    (lv : FullyConnectedLatentVariable B S D NI NG)
    (x : Fin B → Fin S → Fin NG → ℚ) (gen : Bool) (n_samples : ℕ)
    (freshPrior : Fin n_samples → Fin B × Fin S × Fin D → ℚ)
    (freshPost : Fin n_samples → Fin B × Fin D → ℚ) :
    ((lv.generate sdev (some x) gen n_samples freshPrior freshPost).2.prior.mean
        = fun p => lv.prior_mean.run (x p.1 p.2.1) p.2.2)
    ∧ ((lv.generate sdev (some x) gen n_samples freshPrior freshPost).2.prior.log_var
        = fun p => lv.prior_log_var.run (x p.1 p.2.1) p.2.2)
    ∧ ((lv.generate sdev none gen n_samples freshPrior freshPost).2.prior.mean
        = lv.prior.mean)
    ∧ ((lv.generate sdev none gen n_samples freshPrior freshPost).2.prior.log_var
        = lv.prior.log_var)
    ∧ ((lv.generate sdev none gen n_samples freshPrior freshPost).1
        = if gen then Sum.inl (lv.prior.sample sdev n_samples true freshPrior).1
          else Sum.inr (lv.approx_post.sample sdev n_samples true freshPost).1)
    ∧ ((lv.generate sdev (some x) true n_samples freshPrior freshPost).1
        = Sum.inl (fun k p => lv.prior_mean.run (x p.1 p.2.1) p.2.2
            + sdev (lv.prior_log_var.run (x p.1 p.2.1) p.2.2) * freshPrior k p))
    ∧ ((lv.generate sdev (some x) false n_samples freshPrior freshPost).1
        = Sum.inr (lv.approx_post.sample sdev n_samples true freshPost).1)
    ∧ ((lv.generate sdev (some x) false n_samples freshPrior freshPost).2.approx_post
        = (lv.approx_post.sample sdev n_samples true freshPost).2) := by
  have hm : ∀ p : Fin B × Fin S × Fin D,
      unflat3 (fun i => lv.prior_mean.run (flat3 x i)) p.1 p.2.1 p.2.2
        = lv.prior_mean.run (x p.1 p.2.1) p.2.2 := by
    intro p
    exact unflat3_flat3 _ x p.1 p.2.1 p.2.2
  have hv : ∀ p : Fin B × Fin S × Fin D,
      unflat3 (fun i => lv.prior_log_var.run (flat3 x i)) p.1 p.2.1 p.2.2
        = lv.prior_log_var.run (x p.1 p.2.1) p.2.2 := by
    intro p
    exact unflat3_flat3 _ x p.1 p.2.1 p.2.2
  refine ⟨?_, ?_, ?_, ?_, ?_, ?_, ?_, ?_⟩
  · cases gen <;> exact funext fun p => hm p
  · cases gen <;> exact funext fun p => hv p
  · cases gen <;> rfl
  · cases gen <;> rfl
  · cases gen <;> rfl
  · exact congrArg Sum.inl (funext fun k => funext fun p => by
      show unflat3 (fun i => lv.prior_mean.run (flat3 x i)) p.1 p.2.1 p.2.2
            + sdev (unflat3 (fun i => lv.prior_log_var.run (flat3 x i)) p.1 p.2.1 p.2.2)
              * freshPrior k p
          = _
      rw [hm p, hv p])
  · rfl
  · rfl

end GenFilter
